import Mathlib

/- Formal model of the instruction-dataset preparation pipeline from
   src/_instruct.py and src/_instruct_templates.py.

   Samples are string-keyed, string-valued mappings modelled as association
   lists.  Python dict access `sample[k]` raising `KeyError` is modelled as
   `Except` with a `keyError` constructor; `ValueError` and `AssertionError`
   are further constructors.  `np.where(mask, IGNORE, tokens)` is modelled
   with numpy's 1-d broadcasting semantics. -/

/-- Python exceptions that the modelled code can raise.
`keyError k` models `KeyError(k)` (the spec's `MissingFieldError`);
`valueError` models `ValueError` (the spec's `ConfigurationError` at
construction time and the template-type rejection in `__init__`);
`validationError` models a failure of torchtune's `validate_messages`;
`broadcastError` models numpy's shape-mismatch `ValueError` in `np.where`;
`assertionError` models a failed `assert`. -/
inductive PyError where
  | keyError (key : String)
  | valueError
  | validationError
  | broadcastError
  | assertionError
deriving DecidableEq, Repr

/-- A data sample: a mapping from field names to string values
(`Mapping[str, Any]` in the source, with string-valued fields). -/
def Sample : Type := List (String × String)

/-- A column map: a mapping from canonical placeholder names
(`instruction`, `input`, `output`) to actual field names. -/
def ColumnMap : Type := List (String × String)

/-- Key resolution used by the template `format` methods
(src/_instruct_templates.py lines 127, 145-146 and 169-171):
`column_map = column_map or {}` followed by `column_map.get(key, key)`. -/
def resolveKey (columnMap : Option ColumnMap) (key : String) : String :=
  (((columnMap.getD []).lookup key).getD key)

/-- Message roles occurring in this core (src/_instruct.py lines 119-122). -/
inductive Role where
  | user
  | assistant
deriving DecidableEq, Repr

/-- A torchtune `Message`: role, content and the loss-masking flag.
The Python constructor default for `masked` is `False`. -/
structure Message where
  role : Role
  content : String
  masked : Bool
deriving DecidableEq, Repr

namespace AlpacaInstructTemplate

/-- The `prompt_input` entry of `AlpacaInstructTemplate.template`
(src/_instruct_templates.py lines 77-81), with the two placeholders
substituted positionally. -/
def promptInput (instruction inp : String) : String :=
  "Below is an instruction that describes a task, paired with an input that provides further context. Write a response that appropriately completes the request.\n\n### Instruction:\n"
    ++ instruction ++ "\n\n### Input:\n" ++ inp ++ "\n\n### Response:\n"

/-- The `prompt_no_input` entry of `AlpacaInstructTemplate.template`
(src/_instruct_templates.py lines 82-86). -/
def promptNoInput (instruction : String) : String :=
  "Below is an instruction that describes a task. Write a response that appropriately completes the request.\n\n### Instruction:\n"
    ++ instruction ++ "\n\n### Response:\n"

/-- The `prompt_issai` entry of `AlpacaInstructTemplate.template`
(src/_instruct_templates.py lines 87-91). -/
def promptIssai (instruction inp : String) : String :=
  "Below is an instruction that describes a task. Write a response that appropriately completes the request.\n\n### Instruction:\n"
    ++ instruction ++ "\n" ++ inp ++ "\n\n### Response:\n"

/-- `AlpacaInstructTemplate.format` (src/_instruct_templates.py lines
94-152).  The conditional instruction-only branch is commented out in the
source; the active code resolves both keys and always substitutes into
`prompt_issai`.  Python evaluates `sample[key_instruction]` before
`sample[key_input]` (keyword arguments evaluate left to right), so a
missing instruction key raises first. -/
def format (sample : Sample) (columnMap : Option ColumnMap) :
    Except PyError String :=
  let keyInput := resolveKey columnMap "input"
  let keyInstruction := resolveKey columnMap "instruction"
  match sample.lookup keyInstruction with
  | none => .error (.keyError keyInstruction)
  | some instruction =>
    match sample.lookup keyInput with
    | none => .error (.keyError keyInput)
    | some inp => .ok (promptIssai instruction inp)

end AlpacaInstructTemplate

namespace LlamaInstructTemplate

/-- The `llama_orig` entry of `LlamaInstructTemplate.template`
(src/_instruct_templates.py lines 156-162), with the two placeholders
substituted. -/
def llamaOrig (instruction inp : String) : String :=
  "<|start_header_id|>system<|end_header_id|>\n\nCutting Knowledge Date: December 2023\nToday Date: 23 July 2024\n\nYou are a helpful assistant<|start_header_id|>user<|end_header_id|>\n\n"
    ++ instruction ++ "\n" ++ inp ++ "\n<|start_header_id|>assistant<|end_header_id|>"

/-- `LlamaInstructTemplate.format` (src/_instruct_templates.py lines
164-178): resolves both keys and substitutes into `llama_orig`. -/
def format (sample : Sample) (columnMap : Option ColumnMap) :
    Except PyError String :=
  let keyInput := resolveKey columnMap "input"
  let keyInstruction := resolveKey columnMap "instruction"
  match sample.lookup keyInstruction with
  | none => .error (.keyError keyInstruction)
  | some instruction =>
    match sample.lookup keyInput with
    | none => .error (.keyError keyInput)
    | some inp => .ok (llamaOrig instruction inp)

end LlamaInstructTemplate

/-- The concrete `InstructTemplate` subclasses defined in
src/_instruct_templates.py.  `InstructTemplate` itself is abstract
(its `format` is an abstractmethod), so an instantiable template class
is one of these two. -/
inductive TemplateClass where
  | alpaca
  | llama
deriving DecidableEq, Repr

/-- `isinstance(template(), AlpacaInstructTemplate)`. -/
def TemplateClass.isAlpacaInstance : TemplateClass → Bool
  | .alpaca => true
  | .llama => false

/-- `isinstance(template(), InstructTemplate)`: both concrete classes
subclass `InstructTemplate`. -/
def TemplateClass.isInstructTemplateInstance : TemplateClass → Bool
  | _ => true

/-- Dynamic dispatch of `self.template.format(sample, column_map)`. -/
def templateFormat (tc : TemplateClass) (sample : Sample)
    (columnMap : Option ColumnMap) : Except PyError String :=
  match tc with
  | .alpaca => AlpacaInstructTemplate.format sample columnMap
  | .llama => LlamaInstructTemplate.format sample columnMap

/-- The torchtune constant `CROSS_ENTROPY_IGNORE_IDX`, the ignore index of
the cross-entropy loss. -/
def CROSS_ENTROPY_IGNORE_IDX : Int := -100

/-- Resolution of the output key (src/_instruct.py lines 114-118 and
224-228): `self._column_map["output"] if self._column_map and "output" in
self._column_map else "output"`.  An absent or empty (falsy) column map
yields the literal key `"output"`. -/
def resolveOutputKey (columnMap : Option ColumnMap) : String :=
  match columnMap with
  | some cm => if (cm.lookup "output").isSome
               then (cm.lookup "output").getD "output"
               else "output"
  | none => "output"

/-- The optional caller-supplied transform (src/_instruct.py lines 110 and
221): `self._transform(sample) if self._transform else sample`. -/
def applyTransform (transform : Option (Sample → Sample)) (sample : Sample) :
    Sample :=
  match transform with
  | some f => f sample
  | none => sample

/-- Message-pair construction (src/_instruct.py lines 119-122 and 230-233):
a user message carrying the formatted prompt, masked exactly when
`train_on_input` is false, followed by an assistant message carrying the
sample's output value with the constructor default `masked=False`. -/
def buildMessages (prompt output : String) (trainOnInput : Bool) :
    List Message :=
  [⟨Role.user, prompt, !trainOnInput⟩, ⟨Role.assistant, output, false⟩]

/-- `np.where(mask, fill, tokens)` on 1-d arrays, including numpy's
broadcasting: equal lengths select elementwise; a length-1 `mask`
broadcasts over `tokens`; a length-1 `tokens` broadcasts over `mask`;
any other length mismatch raises a shape `ValueError`. -/
def npWhere (mask : List Bool) (fill : Int) (tokens : List Int) :
    Except PyError (List Int) :=
  if mask.length = tokens.length then
    .ok (List.zipWith (fun m t => if m then fill else t) mask tokens)
  else if mask.length = 1 then
    .ok (tokens.map (fun t => if mask.getD 0 false then fill else t))
  else if tokens.length = 1 then
    .ok (mask.map (fun m => if m then fill else tokens.getD 0 0))
  else .error .broadcastError

/-- The result record `{"tokens": tokens, "labels": labels}` returned per
sample. -/
structure LabeledSample where
  tokens : List Int
  labels : List Int
deriving DecidableEq, Repr

/-- Label derivation and the length assertion (src/_instruct.py lines
130-132 and 244-247): `labels = list(np.where(mask,
CROSS_ENTROPY_IGNORE_IDX, tokens))` followed by
`assert len(tokens) == len(labels)`. -/
def deriveAndCheck (tokens : List Int) (mask : List Bool) :
    Except PyError LabeledSample :=
  match npWhere mask CROSS_ENTROPY_IGNORE_IDX tokens with
  | .error e => .error e
  | .ok labels =>
    if tokens.length = labels.length then .ok ⟨tokens, labels⟩
    else .error .assertionError

/-- Outcome of one `_prepare_sample` call: the returned record or the
raised exception, together with whether `tokenize_messages` was reached.
The flag records Python control flow: it is `false` exactly on the paths
that raise before the tokenizer adapter is invoked. -/
structure PrepOutcome where
  result : Except PyError LabeledSample
  tokenizerCalled : Bool

namespace InstructDataset

/-- The template check in `InstructDataset.__init__` (src/_instruct.py
lines 89-92): `if not isinstance(template(), AlpacaInstructTemplate):
raise ValueError(...)`. -/
def initCheck (template : TemplateClass) : Except PyError Unit :=
  if !template.isAlpacaInstance then .error .valueError else .ok ()

/-- `InstructDataset._prepare_sample` (src/_instruct.py lines 109-134).
The tokenizer adapter `tokenize_messages` and the external
`validate_messages` are parameters; a `validate` result of `false` models
`validate_messages` raising. -/
def prepareSample (tokenize : List Message → List Int × List Bool)
    (validate : List Message → Bool) (transform : Option (Sample → Sample))
    (template : TemplateClass) (columnMap : Option ColumnMap)
    (trainOnInput : Bool) (sample : Sample) : PrepOutcome :=
  let transformedSample := applyTransform transform sample
  match templateFormat template transformedSample columnMap with
  | .error e => ⟨.error e, false⟩
  | .ok prompt =>
    let keyOutput := resolveOutputKey columnMap
    match transformedSample.lookup keyOutput with
    | none => ⟨.error (.keyError keyOutput), false⟩
    | some output =>
      let messages := buildMessages prompt output trainOnInput
      if validate messages then
        let tm := tokenize messages
        ⟨deriveAndCheck tm.1 tm.2, true⟩
      else ⟨.error .validationError, false⟩

end InstructDataset

namespace ISSAIInstructDataset

/-- The template check in `ISSAIInstructDataset.__init__` (src/_instruct.py
lines 194-197): `if not isinstance(template(), InstructTemplate):
raise ValueError(...)`. -/
def initCheck (template : TemplateClass) : Except PyError Unit :=
  if !template.isInstructTemplateInstance then .error .valueError else .ok ()

/-- `ISSAIInstructDataset._prepare_sample` (src/_instruct.py lines
220-249), translated separately from its own lines; the Python body is a
duplicate of `InstructDataset._prepare_sample` up to comments. -/
def prepareSample (tokenize : List Message → List Int × List Bool)
    (validate : List Message → Bool) (transform : Option (Sample → Sample))
    (template : TemplateClass) (columnMap : Option ColumnMap)
    (trainOnInput : Bool) (sample : Sample) : PrepOutcome :=
  let transformedSample := applyTransform transform sample
  match templateFormat template transformedSample columnMap with
  | .error e => ⟨.error e, false⟩
  | .ok prompt =>
    let keyOutput := resolveOutputKey columnMap
    match transformedSample.lookup keyOutput with
    | none => ⟨.error (.keyError keyOutput), false⟩
    | some output =>
      let messages := buildMessages prompt output trainOnInput
      if validate messages then
        let tm := tokenize messages
        ⟨deriveAndCheck tm.1 tm.2, true⟩
      else ⟨.error .validationError, false⟩

end ISSAIInstructDataset

/-- The tokenizer attributes consulted by the dataset constructors:
`max_seq_len` and `pad_id`. -/
structure TokenizerCfg where
  maxSeqLen : Option Nat
  padId : Int
deriving DecidableEq, Repr

/-- What the two builder functions construct and return: either a
`PackedDataset` or a `NotPackedDataset`, with the `max_seq_len` and
`padding_idx` arguments they were given.  `instruct_dataset` passes no
`padding_idx` to `PackedDataset`, `issai_instruct_dataset` does. -/
inductive ConstructedDataset where
  | packed (maxSeqLen : Option Nat) (padId : Option Int)
  | notPacked (maxSeqLen : Option Nat) (padId : Int)
deriving DecidableEq, Repr

/-- The packing decision of `instruct_dataset` (src/_instruct.py lines
174-180): when `packed` and `tokenizer.max_seq_len is None`, raise
`ValueError`; when `packed` otherwise, build
`PackedDataset(ds, max_seq_len=tokenizer.max_seq_len)`; else build
`NotPackedDataset(ds, max_seq_len=max_seq_len, padding_idx=tokenizer.pad_id)`. -/
def instruct_dataset (tokenizer : TokenizerCfg) (packed : Bool)
    (maxSeqLen : Option Nat) : Except PyError ConstructedDataset :=
  if packed then
    match tokenizer.maxSeqLen with
    | none => .error .valueError
    | some m => .ok (.packed (some m) none)
  else .ok (.notPacked maxSeqLen tokenizer.padId)

/-- The packing decision of `issai_instruct_dataset` (src/_instruct.py
lines 271-275): `PackedDataset(ds, max_seq_len=max_seq_len,
padding_idx=tokenizer.pad_id) if packed else NotPackedDataset(ds,
max_seq_len=max_seq_len, padding_idx=tokenizer.pad_id)`, with no check on
`max_seq_len` or the tokenizer. -/
def issai_instruct_dataset (tokenizer : TokenizerCfg) (packed : Bool)
    (maxSeqLen : Option Nat) : Except PyError ConstructedDataset :=
  if packed then .ok (.packed maxSeqLen (some tokenizer.padId))
  else .ok (.notPacked maxSeqLen tokenizer.padId)

theorem promptIssai_empty_ne_promptNoInput (instruction : String) :
    AlpacaInstructTemplate.promptIssai instruction "" ≠
      AlpacaInstructTemplate.promptNoInput instruction := by
  intro h
  have hl := congrArg String.length h
  simp only [AlpacaInstructTemplate.promptIssai,
    AlpacaInstructTemplate.promptNoInput, String.length_append] at hl
  have h1 : ("\n" : String).length = 1 := by decide
  have h0 : ("" : String).length = 0 := by decide
  rw [h1, h0] at hl
  omega

/-- C1: for every (tokens, mask) pair of equal length, label derivation
(the `np.where` line plus the length assertion of `_prepare_sample`)
returns labels with `labels[i] = CROSS_ENTROPY_IGNORE_IDX` iff `mask[i]`
is true, and `labels[i] = tokens[i]` wherever `mask[i]` is false, under
the precondition that the sentinel never occurs among the token ids. -/
theorem derive_labels_mask_sentinel (tokens : List Int) (mask : List Bool)
    (hlen : mask.length = tokens.length)
    (hsent : CROSS_ENTROPY_IGNORE_IDX ∉ tokens) :
    ∃ labels, deriveAndCheck tokens mask = .ok ⟨tokens, labels⟩ ∧
      labels.length = tokens.length ∧
      ∀ i (h1 : i < labels.length) (h2 : i < mask.length)
        (h3 : i < tokens.length),
        (labels[i] = CROSS_ENTROPY_IGNORE_IDX ↔ mask[i] = true) ∧
        (mask[i] = false → labels[i] = tokens[i]) := by
  refine ⟨List.zipWith
      (fun m t => if m then CROSS_ENTROPY_IGNORE_IDX else t) mask tokens,
    ?_, ?_, ?_⟩
  · simp [deriveAndCheck, npWhere, hlen]
  · simp [List.length_zipWith, hlen]
  · intro i h1 h2 h3
    rw [List.getElem_zipWith]
    rcases hm : mask[i] with _ | _
    · simp only [if_neg Bool.false_ne_true]
      have : tokens[i] ≠ CROSS_ENTROPY_IGNORE_IDX := by
        intro he
        exact hsent (he ▸ List.getElem_mem h3)
      simp [this]
    · simp

/-- Witness for C1 at tokens `[5, 7]`, mask `[true, false]`. -/
theorem derive_labels_mask_sentinel_witness :
    ∃ labels, deriveAndCheck [5, 7] [true, false] = .ok ⟨[5, 7], labels⟩ ∧
      labels.length = ([5, 7] : List Int).length ∧
      ∀ i (h1 : i < labels.length)
        (h2 : i < ([true, false] : List Bool).length)
        (h3 : i < ([5, 7] : List Int).length),
        (labels[i] = CROSS_ENTROPY_IGNORE_IDX ↔
          ([true, false] : List Bool)[i] = true) ∧
        (([true, false] : List Bool)[i] = false →
          labels[i] = ([5, 7] : List Int)[i]) :=
  derive_labels_mask_sentinel [5, 7] [true, false] (by decide) (by decide)

/-- C2: sample preparation builds exactly two messages, in fixed order: a
user message whose content is the formatted prompt and whose masked flag is
the negation of `train_on_input`, then an assistant message whose content
is the sample's resolved output value and whose masked flag is false. -/
theorem build_messages_pair (prompt output : String) (trainOnInput : Bool) :
    buildMessages prompt output trainOnInput =
      [⟨Role.user, prompt, !trainOnInput⟩,
       ⟨Role.assistant, output, false⟩] ∧
    (buildMessages prompt output trainOnInput).length = 2 :=
  ⟨rfl, rfl⟩

/-- C3: whenever both resolved fields are present,
`AlpacaInstructTemplate.format` substitutes them into the `prompt_issai`
layout, which includes the input value unconditionally — also when the
input is the empty string — and the empty-input result differs from the
instruction-only `prompt_no_input` layout, so no fallback branch exists. -/
theorem alpaca_format_includes_input_unconditionally (sample : Sample)
    (columnMap : Option ColumnMap) (instruction inp : String)
    (hinstr : sample.lookup (resolveKey columnMap "instruction") =
      some instruction)
    (hinp : sample.lookup (resolveKey columnMap "input") = some inp) :
    AlpacaInstructTemplate.format sample columnMap =
      .ok (AlpacaInstructTemplate.promptIssai instruction inp) ∧
    AlpacaInstructTemplate.promptIssai instruction "" ≠
      AlpacaInstructTemplate.promptNoInput instruction := by
  refine ⟨?_, promptIssai_empty_ne_promptNoInput instruction⟩
  simp [AlpacaInstructTemplate.format, hinstr, hinp]

/-- Witness for C3 at a sample with an empty input field. -/
theorem alpaca_format_includes_input_unconditionally_witness :
    AlpacaInstructTemplate.format
        [("instruction", "Summarize"), ("input", ""), ("output", "S")]
        none =
      .ok (AlpacaInstructTemplate.promptIssai "Summarize" "") ∧
    AlpacaInstructTemplate.promptIssai "Summarize" "" ≠
      AlpacaInstructTemplate.promptNoInput "Summarize" :=
  alpaca_format_includes_input_unconditionally
    [("instruction", "Summarize"), ("input", ""), ("output", "S")]
    none "Summarize" "" (by decide) (by decide)

/-- C4 counterexample: with the tokenizer adapter returning three tokens
but a one-element mask (mismatched lengths), preparation does not raise:
numpy broadcasts the mask across the tokens, the `assert len(tokens) ==
len(labels)` passes, and a full result record is returned. -/
theorem prepare_mismatched_mask_returns_result :
    (InstructDataset.prepareSample (fun _ => ([1, 2, 3], [true]))
        (fun _ => true) none TemplateClass.alpaca none false
        [("instruction", "i"), ("input", "x"), ("output", "o")]).result =
      .ok ⟨[1, 2, 3], [-100, -100, -100]⟩ ∧
    ([1, 2, 3] : List Int).length ≠ ([true] : List Bool).length :=
  ⟨rfl, by decide⟩

/-- C4 amended: after label derivation, preparation asserts
`len(tokens) == len(labels)` (not tokens versus mask); a tokens/mask
length mismatch is surfaced as an error — numpy's broadcast failure or
the assertion — in every case except a one-element mask, which silently
broadcasts. -/
theorem length_mismatch_errors_unless_singleton_mask (tokens : List Int)
    (mask : List Bool) (hne : tokens.length ≠ mask.length)
    (hmask : mask.length ≠ 1) :
    deriveAndCheck tokens mask = .error .broadcastError ∨
    deriveAndCheck tokens mask = .error .assertionError := by
  have h1 : ¬ mask.length = tokens.length := fun h => hne h.symm
  by_cases h2 : tokens.length = 1
  · right
    have h3 : ¬ tokens.length = (List.map
        (fun m => if m then CROSS_ENTROPY_IGNORE_IDX else tokens.getD 0 0)
        mask).length := by
      simp only [List.length_map]
      omega
    simp [deriveAndCheck, npWhere, h1, hmask, h2, h3]
    omega
  · left
    simp [deriveAndCheck, npWhere, h1, hmask, h2]

/-- Witness for the amended C4 at tokens `[1, 2]`, mask
`[true, false, true]`. -/
theorem length_mismatch_errors_unless_singleton_mask_witness :
    deriveAndCheck [1, 2] [true, false, true] = .error .broadcastError ∨
    deriveAndCheck [1, 2] [true, false, true] = .error .assertionError :=
  length_mismatch_errors_unless_singleton_mask [1, 2] [true, false, true]
    (by decide) (by decide)

/-- C5: when the transformed sample lacks the resolved output key, both
preparation routines raise `KeyError` on that key, for every tokenizer
adapter, and the tokenizer adapter is never invoked on that path. -/
theorem missing_output_fails_before_tokenization
    (tokenize : List Message → List Int × List Bool)
    (validate : List Message → Bool) (transform : Option (Sample → Sample))
    (template : TemplateClass) (columnMap : Option ColumnMap)
    (trainOnInput : Bool) (sample : Sample) (prompt : String)
    (hfmt : templateFormat template (applyTransform transform sample)
      columnMap = .ok prompt)
    (hout : (applyTransform transform sample).lookup
      (resolveOutputKey columnMap) = none) :
    InstructDataset.prepareSample tokenize validate transform template
        columnMap trainOnInput sample =
      ⟨.error (.keyError (resolveOutputKey columnMap)), false⟩ ∧
    ISSAIInstructDataset.prepareSample tokenize validate transform template
        columnMap trainOnInput sample =
      ⟨.error (.keyError (resolveOutputKey columnMap)), false⟩ := by
  constructor
  · simp [InstructDataset.prepareSample, hfmt, hout]
  · simp [ISSAIInstructDataset.prepareSample, hfmt, hout]

/-- Witness for C5 at a sample holding instruction and input fields but no
output field. -/
theorem missing_output_fails_before_tokenization_witness :
    InstructDataset.prepareSample (fun _ => ([], [])) (fun _ => true) none
        TemplateClass.alpaca none false
        [("instruction", "a"), ("input", "b")] =
      ⟨.error (.keyError (resolveOutputKey none)), false⟩ ∧
    ISSAIInstructDataset.prepareSample (fun _ => ([], [])) (fun _ => true)
        none TemplateClass.alpaca none false
        [("instruction", "a"), ("input", "b")] =
      ⟨.error (.keyError (resolveOutputKey none)), false⟩ :=
  missing_output_fails_before_tokenization (fun _ => ([], []))
    (fun _ => true) none TemplateClass.alpaca none false
    [("instruction", "a"), ("input", "b")]
    (AlpacaInstructTemplate.promptIssai "a" "b") rfl rfl

/-- C6: for every sample in which the resolved instruction key or the
resolved input key is absent, `format` of either template raises a
`KeyError` on a missing key. -/
theorem format_missing_field_error (tc : TemplateClass) (sample : Sample)
    (columnMap : Option ColumnMap)
    (h : sample.lookup (resolveKey columnMap "instruction") = none ∨
         sample.lookup (resolveKey columnMap "input") = none) :
    ∃ key, templateFormat tc sample columnMap =
      .error (.keyError key) := by
  rcases hi : sample.lookup (resolveKey columnMap "instruction") with _ | v
  · exact ⟨resolveKey columnMap "instruction", by
      cases tc <;>
        simp [templateFormat, AlpacaInstructTemplate.format,
          LlamaInstructTemplate.format, hi]⟩
  · have hj : sample.lookup (resolveKey columnMap "input") = none := by
      rcases h with h | h
      · exact absurd h (hi ▸ fun hc => Option.noConfusion hc)
      · exact h
    exact ⟨resolveKey columnMap "input", by
      cases tc <;>
        simp [templateFormat, AlpacaInstructTemplate.format,
          LlamaInstructTemplate.format, hi, hj]⟩

/-- Witness for C6 at the empty sample. -/
theorem format_missing_field_error_witness :
    ∃ key, templateFormat TemplateClass.alpaca [] none =
      .error (.keyError key) :=
  format_missing_field_error TemplateClass.alpaca [] none (Or.inl rfl)

/-- C7 counterexample: `issai_instruct_dataset` with `packed=True` and a
tokenizer without a `max_seq_len` performs no check and constructs a
packed dataset — construction does not fail with a configuration error. -/
theorem issai_packed_without_max_seq_len_constructs :
    issai_instruct_dataset ⟨none, 0⟩ true none =
      .ok (.packed none (some 0)) := rfl

/-- C7 amended: only `instruct_dataset` guards packing — it raises
`ValueError` whenever `packed=True` and `tokenizer.max_seq_len is None` —
while `issai_instruct_dataset` never checks and always constructs a
dataset. -/
theorem packed_construction_checks :
    (∀ (tokenizer : TokenizerCfg) (maxSeqLen : Option Nat),
      tokenizer.maxSeqLen = none →
        instruct_dataset tokenizer true maxSeqLen = .error .valueError) ∧
    (∀ (tokenizer : TokenizerCfg) (packed : Bool) (maxSeqLen : Option Nat),
      ∃ d, issai_instruct_dataset tokenizer packed maxSeqLen = .ok d) := by
  constructor
  · intro tokenizer maxSeqLen h
    simp [instruct_dataset, h]
  · intro tokenizer packed maxSeqLen
    cases packed
    · exact ⟨_, rfl⟩
    · exact ⟨_, rfl⟩

/-- Witness for the amended C7: the guarded path of `instruct_dataset`. -/
theorem packed_construction_checks_witness :
    instruct_dataset ⟨none, 0⟩ true none = .error .valueError :=
  packed_construction_checks.1 ⟨none, 0⟩ none rfl

/-- C8: template formatting is a deterministic, side-effect-free function
of its arguments — identical sample and column map yield the identical
output, byte-for-byte. -/
theorem format_deterministic (tc : TemplateClass) (s1 s2 : Sample)
    (cm1 cm2 : Option ColumnMap) (hs : s1 = s2) (hc : cm1 = cm2) :
    templateFormat tc s1 cm1 = templateFormat tc s2 cm2 := by
  subst hs
  subst hc
  rfl

/-- Witness for C8 at a concrete sample. -/
theorem format_deterministic_witness :
    templateFormat TemplateClass.alpaca
        [("instruction", "a"), ("input", "b")] none =
      templateFormat TemplateClass.alpaca
        [("instruction", "a"), ("input", "b")] none :=
  format_deterministic TemplateClass.alpaca
    [("instruction", "a"), ("input", "b")]
    [("instruction", "a"), ("input", "b")] none none rfl rfl

/-- C9: under identical configuration (tokenizer adapter, validator,
transform, template, column map, train-on-input flag), the per-sample
preparation of the two dataset classes is behaviorally identical on every
sample. -/
theorem prepare_sample_equivalence
    (tokenize : List Message → List Int × List Bool)
    (validate : List Message → Bool) (transform : Option (Sample → Sample))
    (template : TemplateClass) (columnMap : Option ColumnMap)
    (trainOnInput : Bool) (sample : Sample) :
    InstructDataset.prepareSample tokenize validate transform template
        columnMap trainOnInput sample =
      ISSAIInstructDataset.prepareSample tokenize validate transform
        template columnMap trainOnInput sample := rfl

/-- C10: `InstructDataset.__init__` raises `ValueError` for every template
class that is not `AlpacaInstructTemplate` and accepts
`AlpacaInstructTemplate`, while `ISSAIInstructDataset.__init__` accepts
every `InstructTemplate` subclass. -/
theorem template_instance_checks :
    (∀ tc : TemplateClass, tc ≠ TemplateClass.alpaca →
      InstructDataset.initCheck tc = .error .valueError) ∧
    InstructDataset.initCheck TemplateClass.alpaca = .ok () ∧
    (∀ tc : TemplateClass, ISSAIInstructDataset.initCheck tc = .ok ()) := by
  refine ⟨?_, rfl, ?_⟩
  · intro tc h
    cases tc
    · exact absurd rfl h
    · rfl
  · intro tc
    cases tc <;> rfl

/-- Witness for C10: `LlamaInstructTemplate` is rejected by
`InstructDataset.__init__`. -/
theorem template_instance_checks_witness :
    InstructDataset.initCheck TemplateClass.llama = .error .valueError :=
  template_instance_checks.1 TemplateClass.llama (by decide)
